import Mathlib

/-!
# Shallow embedding of the XplainIQ Lite scoring engine

This file models the scoring-and-reporting core of `src/XplainIQLite.py`:
the tables `PILLARS` and `TIER_BANDS`, the functions `tier_for`,
`compute_scores`, `derive_strengths_gaps` and `recommend_actions`.

Modelling conventions:
* Python dictionaries of answers are modelled as functions
  `QuestionId → Option ℤ`; `answers.get(q, 0)` becomes `(answers q).getD 0`.
* Python float arithmetic is modelled by exact rational arithmetic over `ℚ`.
  Every concrete value appearing in the claims (20, 52, 60, 100, ...) is
  computed exactly by the float program as well, so the rational model agrees
  with the float program on all claim-relevant values.
* The Python builtin `round` is round-half-to-even on a one-argument call;
  `pyRound` implements that on `ℚ`.
* The Python builtin `sorted` is a stable sort; it is modelled by
  `List.insertionSort`, which is stable and produces the identical output
  (a stable sort of a list under a total preorder is unique).
-/

/-- A question identifier such as `"A1"`. -/
abbrev QuestionId := String

/-- An answer set: a partial mapping from question id to integer response,
modelling the Python dict handed to `compute_scores`. A key that is absent
from the dict is `none`. -/
abbrev AnswerSet := QuestionId → Option ℤ

/-- One entry of the pillar-score list produced by `compute_scores`:
pillar name, score, and the association list of the raw answers of the
pillar (the Python `dict(zip(qids, vals))`). -/
abbrev PillarScore := String × ℚ × List (QuestionId × ℤ)

/-- The `PILLARS` table of the source (lines 47 to 53): each pillar name with
its ordered question ids. -/
def PILLARS : List (String × List QuestionId) :=
  [("A. Channel Strategy & Alignment", ["A1", "A2"]),
   ("B. Partner Program Design", ["B1", "B2"]),
   ("C. Partner Enablement & Engagement", ["C1", "C2"]),
   ("D. Sales & Operations Integration", ["D1", "D2"]),
   ("E. Growth Readiness", ["E1", "E2"])]

/-- The `TIER_BANDS` table of the source (lines 68 to 73): label with
inclusive lower and upper bound. -/
def TIER_BANDS : List (String × ℤ × ℤ) :=
  [("Emerging", 0, 39),
   ("Developing", 40, 59),
   ("Established", 60, 79),
   ("Optimized", 80, 100)]

/-- The Python builtin `round` on a rational: round half to even
(bankers rounding), as used by `tier_for` in the source (line 79).
The fractional part of `q` is `(q.num - q.floor * q.den) / q.den`, so it is
below, above, or exactly one half according as `2 * (q.num - q.floor * q.den)`
is below, above, or equal to `q.den`; on a tie the even neighbour wins. -/
def pyRound (q : ℚ) : ℤ :=
  let f := q.floor
  let r2 := 2 * (q.num - f * (q.den : ℤ))
  if r2 < (q.den : ℤ) then f
  else if (q.den : ℤ) < r2 then f + 1
  else if f % 2 = 0 then f else f + 1

/-- `tier_for` of the source (lines 78 to 83): round the score, return the
label of the first band whose inclusive range contains it, and fall back to
the literal string `"Unknown"` when no band matches. -/
def tier_for (score : ℚ) : String :=
  match TIER_BANDS.find? fun b => decide (b.2.1 ≤ pyRound score ∧ pyRound score ≤ b.2.2) with
  | some b => b.1
  | none => "Unknown"

/-- The list `vals` built inside `compute_scores` (line 97):
`[int(answers.get(q, 0)) for q in qids]`. -/
def pillarVals (answers : AnswerSet) (qids : List QuestionId) : List ℤ :=
  qids.map fun q => (answers q).getD 0

/-- The per-pillar score of `compute_scores` (lines 98 to 101): `0` when the
value list is empty or all zero, otherwise `(sum(vals) / len(vals)) / 5.0 * 100.0`. -/
def pillarScoreOf (answers : AnswerSet) (qids : List QuestionId) : ℚ :=
  let vals := pillarVals answers qids
  if vals.isEmpty || vals.all fun v => v == 0 then 0
  else ((vals.sum : ℚ) / (vals.length : ℚ)) / 5 * 100

/-- `compute_scores` generalized over the pillar catalog (the source reads
the global `PILLARS`; claim C8 quantifies over catalogs). Returns the pillar
score list and the overall score (lines 94 to 104). -/
def compute_scores_with (catalog : List (String × List QuestionId))
    (answers : AnswerSet) : List PillarScore × ℚ :=
  let pillar_scores : List PillarScore :=
    catalog.map fun c =>
      (c.1, pillarScoreOf answers c.2, c.2.map fun q => (q, (answers q).getD 0))
  (pillar_scores, ((pillar_scores.map fun p => p.2.1).sum) / (pillar_scores.length : ℚ))

/-- `compute_scores` of the source (lines 94 to 104), on the fixed `PILLARS`
catalog. -/
def compute_scores (answers : AnswerSet) : List PillarScore × ℚ :=
  compute_scores_with PILLARS answers

/-- The Python `sorted(ps, key=lambda x: x[1], reverse=True)` of line 107:
stable sort, descending by score. Modelled by the stable `insertionSort`
under the relation `fun a b => b.2.1 ≤ a.2.1`. -/
def sortedDesc (ps : List PillarScore) : List PillarScore :=
  List.insertionSort (fun a b => b.2.1 ≤ a.2.1) ps

/-- The Python `sorted(ps, key=lambda x: x[1])` of line 120: stable sort,
ascending by score. -/
def sortedAsc (ps : List PillarScore) : List PillarScore :=
  List.insertionSort (fun a b => a.2.1 ≤ b.2.1) ps

/-- `derive_strengths_gaps` of the source (lines 106 to 110): strengths are
the names of `sorted_p[:2]`, gaps the names of `sorted_p[-3:]`, where
`sorted_p` is the descending stable sort. The Python slice `[-3:]` is
`drop (length - 3)`. -/
def derive_strengths_gaps (ps : List PillarScore) : List String × List String :=
  let sorted_p := sortedDesc ps
  ((sorted_p.take 2).map fun p => p.1,
   (sorted_p.drop (sorted_p.length - 3)).map fun p => p.1)

/-- The `playbook` table inside `recommend_actions` (lines 113 to 119). -/
def playbook : List (String × String) :=
  [("A. Channel Strategy & Alignment",
    "Clarify the partner role by segment and set a 12-month channel thesis with 3 measurable outcomes."),
   ("B. Partner Program Design",
    "Publish a simple one-pager: tiers, incentives, rules of engagement, and co-marketing paths."),
   ("C. Partner Enablement & Engagement",
    "Stand up a 30-60-90 enablement cadence: onboarding kit, monthly enablement call, quarterly MDF campaign."),
   ("D. Sales & Operations Integration",
    "Separate channel pipeline tracking; define lead routing/quoting SLAs; add ‘channel’ to forecast reviews."),
   ("E. Growth Readiness",
    "Baseline partner P&L and capacity; set tooling minimums (PRM/CRM views) and resource triggers for 2–3× growth.")]

/-- `recommend_actions` of the source (lines 112 to 121): for the first three
entries of the ascending stable sort, look the pillar name up in the playbook
and fall back to a generic recommendation built from the lower-cased name. -/
def recommend_actions (ps : List PillarScore) : List String :=
  let lows := (sortedAsc ps).take 3
  lows.map fun p =>
    match playbook.lookup p.1 with
    | some t => t
    | none => "Prioritize foundational improvements in " ++ p.1.toLower ++ " to enable scale."

/-- The scenario answer set of the spec:
`{A1:5, A2:5, B1:1, B2:1, C1:3, C2:3, D1:3, D2:3, E1:1, E2:1}`. -/
def ansScenario : AnswerSet := fun q =>
  ([("A1", 5), ("A2", 5), ("B1", 1), ("B2", 1), ("C1", 3),
    ("C2", 3), ("D1", 3), ("D2", 3), ("E1", 1), ("E2", 1)] :
      List (QuestionId × ℤ)).lookup q

/-- The empty answer set: every question unanswered. -/
def ansNone : AnswerSet := fun _ => none

/-- An answer set with out-of-range values: `{A1:10, A2:10}`. -/
def ansBig : AnswerSet := fun q =>
  ([("A1", 10), ("A2", 10)] : List (QuestionId × ℤ)).lookup q

/-- A pillar-score list with five distinct scores, ascending in catalog
order; used to exhibit the listing order of the gaps. -/
def psDistinct : List PillarScore :=
  [("A", 10, []), ("B", 20, []), ("C", 30, []), ("D", 40, []), ("E", 50, [])]

/-- A one-pillar catalog whose single pillar has no questions. -/
def catalogEmptyPillar : List (String × List QuestionId) := [("Empty", [])]

/-- A concrete five-pillar score list with a tie, used as witness input for
the strengths/gaps partition claim. -/
def psTie : List PillarScore :=
  [("A", 10, []), ("B", 50, []), ("C", 50, []), ("D", 20, []), ("E", 30, [])]

/-- A concrete pillar-score list over catalog names, used as witness input
for the recommendation claim. -/
def psCatalog : List PillarScore :=
  [("A. Channel Strategy & Alignment", 90, []),
   ("B. Partner Program Design", 10, []),
   ("C. Partner Enablement & Engagement", 30, []),
   ("D. Sales & Operations Integration", 30, []),
   ("E. Growth Readiness", 70, [])]

/-- Helper: a value found by an association-list lookup satisfies any bound
satisfied by every value of the list. -/
theorem lookup_val_bounds (l : List (QuestionId × ℤ)) (lo hi : ℤ)
    (hl : ∀ p ∈ l, lo ≤ p.2 ∧ p.2 ≤ hi) (q : QuestionId) (v : ℤ)
    (hq : l.lookup q = some v) : lo ≤ v ∧ v ≤ hi := by
  rw [List.lookup_eq_some_iff] at hq
  obtain ⟨l₁, l₂, rfl, -⟩ := hq
  exact hl (q, v) (by simp)

/-- Helper: `pillarVals` has one value per question. -/
theorem pillarVals_length (answers : AnswerSet) (qids : List QuestionId) :
    (pillarVals answers qids).length = qids.length := by
  simp [pillarVals]

/-- Helper: on a nonempty question list the pillar score always equals the
mean formula, because the all-zero branch also returns the value of the
formula. -/
theorem pillarScoreOf_formula (answers : AnswerSet) (qids : List QuestionId)
    (hne : qids ≠ []) :
    pillarScoreOf answers qids =
      ((pillarVals answers qids).sum : ℚ) / (qids.length : ℚ) / 5 * 100 := by
  by_cases hz : (pillarVals answers qids).all fun v => v == 0
  · have hsum : (pillarVals answers qids).sum = 0 :=
      List.sum_eq_zero fun x hx => by
        have := List.all_eq_true.mp hz x hx
        simpa using this
    simp [pillarScoreOf, hz, hsum]
  · have hie : (pillarVals answers qids).isEmpty = false := by
      rcases qids with _ | ⟨q, qs⟩
      · exact absurd rfl hne
      · simp [pillarVals]
    simp [pillarScoreOf, hz, hie, pillarVals_length]

/-- Helper: if every gathered value is in `[0, 5]`, the pillar score is in
`[0, 100]`. -/
theorem pillarScoreOf_nonneg_le (answers : AnswerSet) (qids : List QuestionId)
    (h : ∀ q ∈ qids, 0 ≤ (answers q).getD 0 ∧ (answers q).getD 0 ≤ 5) :
    0 ≤ pillarScoreOf answers qids ∧ pillarScoreOf answers qids ≤ 100 := by
  rcases eq_or_ne qids [] with rfl | hne
  · simp [pillarScoreOf, pillarVals]
  · rw [pillarScoreOf_formula answers qids hne]
    have hlen0 : 0 < qids.length := List.length_pos.mpr hne
    have hlen : (0 : ℚ) < (qids.length : ℚ) := by exact_mod_cast hlen0
    have hsum0 : (0 : ℤ) ≤ (pillarVals answers qids).sum :=
      List.sum_nonneg fun x hx => by
        obtain ⟨q, hq, rfl⟩ := List.mem_map.mp hx
        exact (h q hq).1
    have hsum5 : (pillarVals answers qids).sum ≤ 5 * (qids.length : ℤ) := by
      have h1 := List.sum_le_card_nsmul (pillarVals answers qids) 5 fun x hx => by
        obtain ⟨q, hq, rfl⟩ := List.mem_map.mp hx
        exact (h q hq).2
      rw [pillarVals_length, nsmul_eq_mul] at h1
      linarith
    have hq0 : (0 : ℚ) ≤ ((pillarVals answers qids).sum : ℚ) := by exact_mod_cast hsum0
    have hq5 : ((pillarVals answers qids).sum : ℚ) / (qids.length : ℚ) ≤ 5 := by
      rw [div_le_iff₀ hlen]
      have : ((pillarVals answers qids).sum : ℚ) ≤ 5 * (qids.length : ℚ) := by
        exact_mod_cast hsum5
      linarith
    have hqd : (0 : ℚ) ≤ ((pillarVals answers qids).sum : ℚ) / (qids.length : ℚ) :=
      div_nonneg hq0 (le_of_lt hlen)
    constructor
    · positivity
    · nlinarith

/-- Helper: a pillar whose gathered values are all zero scores zero. -/
theorem pillarScoreOf_zero (answers : AnswerSet) (qids : List QuestionId)
    (h : ∀ q ∈ qids, (answers q).getD 0 = 0) :
    pillarScoreOf answers qids = 0 := by
  have hz : (pillarVals answers qids).all (fun v => v == 0) = true := by
    rw [List.all_eq_true]
    intro x hx
    obtain ⟨q, hq, rfl⟩ := List.mem_map.mp hx
    simpa using h q hq
  simp [pillarScoreOf, hz]

/-- Helper: under the hypothesis that every present answer is in `[1, 5]`,
the gathered value of any question is in `[0, 5]`. -/
theorem getD_bounds (answers : AnswerSet)
    (h : ∀ q v, answers q = some v → 1 ≤ v ∧ v ≤ 5) (q : QuestionId) :
    0 ≤ (answers q).getD 0 ∧ (answers q).getD 0 ≤ 5 := by
  cases hq : answers q with
  | none => simp
  | some v =>
    have := h q v hq
    simp only [Option.getD_some]
    omega

/-- Helper: evaluation of `compute_scores` on the scenario answer set. -/
theorem compute_scores_scenario_eval :
    compute_scores ansScenario =
      ([("A. Channel Strategy & Alignment", 100, [("A1", 5), ("A2", 5)]),
        ("B. Partner Program Design", 20, [("B1", 1), ("B2", 1)]),
        ("C. Partner Enablement & Engagement", 60, [("C1", 3), ("C2", 3)]),
        ("D. Sales & Operations Integration", 60, [("D1", 3), ("D2", 3)]),
        ("E. Growth Readiness", 20, [("E1", 1), ("E2", 1)])], 52) := by
  norm_num [compute_scores, compute_scores_with, PILLARS, pillarScoreOf,
    (show pillarVals ansScenario ["A1", "A2"] = [5, 5] from rfl),
    (show pillarVals ansScenario ["B1", "B2"] = [1, 1] from rfl),
    (show pillarVals ansScenario ["C1", "C2"] = [3, 3] from rfl),
    (show pillarVals ansScenario ["D1", "D2"] = [3, 3] from rfl),
    (show pillarVals ansScenario ["E1", "E2"] = [1, 1] from rfl),
    (show (["A1", "A2"].map fun q => (q, (ansScenario q).getD 0)) = [("A1", 5), ("A2", 5)] from rfl),
    (show (["B1", "B2"].map fun q => (q, (ansScenario q).getD 0)) = [("B1", 1), ("B2", 1)] from rfl),
    (show (["C1", "C2"].map fun q => (q, (ansScenario q).getD 0)) = [("C1", 3), ("C2", 3)] from rfl),
    (show (["D1", "D2"].map fun q => (q, (ansScenario q).getD 0)) = [("D1", 3), ("D2", 3)] from rfl),
    (show (["E1", "E2"].map fun q => (q, (ansScenario q).getD 0)) = [("E1", 1), ("E2", 1)] from rfl),
    List.cons_ne_nil]

/-- C7: on the scenario answer set `{A1:5, A2:5, B1:1, B2:1, C1:3, C2:3,
D1:3, D2:3, E1:1, E2:1}`, the pillar scores are A=100, B=20, C=60, D=60,
E=20, the overall score is 52, the tier is "Developing", the strengths are
{A, and one of C/D} and the gaps are {B, E, and one of C/D}. -/
theorem c7_scenario :
    ((compute_scores ansScenario).1.map fun p => (p.1, p.2.1)) =
      [("A. Channel Strategy & Alignment", (100 : ℚ)),
       ("B. Partner Program Design", 20),
       ("C. Partner Enablement & Engagement", 60),
       ("D. Sales & Operations Integration", 60),
       ("E. Growth Readiness", 20)]
    ∧ (compute_scores ansScenario).2 = 52
    ∧ tier_for (compute_scores ansScenario).2 = "Developing"
    ∧ (derive_strengths_gaps (compute_scores ansScenario).1).1.length = 2
    ∧ "A. Channel Strategy & Alignment" ∈ (derive_strengths_gaps (compute_scores ansScenario).1).1
    ∧ ("C. Partner Enablement & Engagement" ∈ (derive_strengths_gaps (compute_scores ansScenario).1).1
        ∨ "D. Sales & Operations Integration" ∈ (derive_strengths_gaps (compute_scores ansScenario).1).1)
    ∧ (derive_strengths_gaps (compute_scores ansScenario).1).2.length = 3
    ∧ "B. Partner Program Design" ∈ (derive_strengths_gaps (compute_scores ansScenario).1).2
    ∧ "E. Growth Readiness" ∈ (derive_strengths_gaps (compute_scores ansScenario).1).2
    ∧ ("C. Partner Enablement & Engagement" ∈ (derive_strengths_gaps (compute_scores ansScenario).1).2
        ∨ "D. Sales & Operations Integration" ∈ (derive_strengths_gaps (compute_scores ansScenario).1).2) := by
  rw [compute_scores_scenario_eval]
  decide

/-- C1 counterexample: on the answer set `{A1:10, A2:10}` the engine does
not clamp the out-of-range values; the first pillar scores 200, which lies
outside `[0, 100]`. -/
theorem c1_counterexample :
    ((compute_scores ansBig).1.map fun p => p.2.1) = [200, 0, 0, 0, 0]
    ∧ ¬ ((200 : ℚ) ≤ 100) := by
  constructor
  · norm_num [compute_scores, compute_scores_with, PILLARS, pillarScoreOf,
      (show pillarVals ansBig ["A1", "A2"] = [10, 10] from rfl),
      (show pillarVals ansBig ["B1", "B2"] = [0, 0] from rfl),
      (show pillarVals ansBig ["C1", "C2"] = [0, 0] from rfl),
      (show pillarVals ansBig ["D1", "D2"] = [0, 0] from rfl),
      (show pillarVals ansBig ["E1", "E2"] = [0, 0] from rfl),
      List.cons_ne_nil]
  · norm_num

/-- C6: the configured tier bands partition `[0, 100]`: every integer in
`[0, 100]` is contained in exactly one inclusive band range, and the table
is `{Emerging 0-39, Developing 40-59, Established 60-79, Optimized 80-100}`. -/
theorem c6_bands_partition :
    (∀ i : Fin 101,
      (TIER_BANDS.countP fun b =>
        decide (b.2.1 ≤ ((i : ℕ) : ℤ) ∧ ((i : ℕ) : ℤ) ≤ b.2.2)) = 1)
    ∧ TIER_BANDS =
      [("Emerging", 0, 39), ("Developing", 40, 59),
       ("Established", 60, 79), ("Optimized", 80, 100)] :=
  ⟨by decide, rfl⟩

/-- C2 (amended): `tier_for` returns the label of the band containing the
rounded score whenever one exists; when no band matches it does not signal
an error but silently returns the sentinel label `"Unknown"`, which is not
the label of any band. -/
theorem c2_tier_lookup (score : ℚ) :
    (∀ name lo hi, (name, lo, hi) ∈ TIER_BANDS →
        lo ≤ pyRound score → pyRound score ≤ hi → tier_for score = name)
    ∧ ((∀ b ∈ TIER_BANDS, ¬ (b.2.1 ≤ pyRound score ∧ pyRound score ≤ b.2.2)) →
        tier_for score = "Unknown" ∧ "Unknown" ∉ TIER_BANDS.map fun b => b.1) := by
  constructor
  · intro name lo hi hmem hlo hhi
    unfold tier_for
    simp only [TIER_BANDS, List.mem_cons, List.not_mem_nil, or_false] at hmem
    simp only [TIER_BANDS]
    rcases hmem with h | h | h | h <;> rcases h with ⟨rfl, rfl, rfl⟩
    · rw [List.find?_cons_of_pos _ (by simp only [decide_eq_true_eq]; exact ⟨hlo, hhi⟩)]
    · rw [List.find?_cons_of_neg _ (by simp only [decide_eq_true_eq]; omega),
          List.find?_cons_of_pos _ (by simp only [decide_eq_true_eq]; exact ⟨hlo, hhi⟩)]
    · rw [List.find?_cons_of_neg _ (by simp only [decide_eq_true_eq]; omega),
          List.find?_cons_of_neg _ (by simp only [decide_eq_true_eq]; omega),
          List.find?_cons_of_pos _ (by simp only [decide_eq_true_eq]; exact ⟨hlo, hhi⟩)]
    · rw [List.find?_cons_of_neg _ (by simp only [decide_eq_true_eq]; omega),
          List.find?_cons_of_neg _ (by simp only [decide_eq_true_eq]; omega),
          List.find?_cons_of_neg _ (by simp only [decide_eq_true_eq]; omega),
          List.find?_cons_of_pos _ (by simp only [decide_eq_true_eq]; exact ⟨hlo, hhi⟩)]
  · intro hnone
    refine ⟨?_, by decide⟩
    unfold tier_for
    have hfind : TIER_BANDS.find?
        (fun b => decide (b.2.1 ≤ pyRound score ∧ pyRound score ≤ b.2.2)) = none := by
      rw [List.find?_eq_none]
      intro b hb
      simpa using hnone b hb
    rw [hfind]

/-- C2 witness: at score 85 the matching band is returned; at score -5 no
band matches and the sentinel `"Unknown"` comes back. -/
theorem c2_witness :
    tier_for 85 = "Optimized"
    ∧ (tier_for (-5 : ℚ) = "Unknown" ∧ "Unknown" ∉ TIER_BANDS.map fun b => b.1) :=
  ⟨(c2_tier_lookup 85).1 "Optimized" 80 100 (by decide) (by decide) (by decide),
   (c2_tier_lookup (-5)).2 (by decide)⟩

/-- C2 counterexample: at score 150 no band matches and `tier_for` silently
returns the sentinel value `"Unknown"`, which is not the label of any band,
instead of signaling an error. -/
theorem c2_counterexample :
    tier_for 150 = "Unknown" ∧ "Unknown" ∉ TIER_BANDS.map fun b => b.1 := by
  decide

/-- C5 counterexample: on five pillars with scores 10, 20, 30, 40, 50 the
gaps come out as `["C", "B", "A"]`, i.e. in descending order of score; the
ascending listing demanded by the claim would be `["A", "B", "C"]`. -/
theorem c5_counterexample :
    (derive_strengths_gaps psDistinct).2 = ["C", "B", "A"]
    ∧ (derive_strengths_gaps psDistinct).2 ≠ ["A", "B", "C"] := by
  decide

/-- C1 (amended): `compute_scores` never fails and treats missing answers as
0, but values outside `[1, 5]` are used as-is, not clamped, so pillar scores
can leave `[0, 100]`; when every present value lies in `[1, 5]`, every
pillar score lies in `[0, 100]`. -/
theorem c1_scores_bounded (answers : AnswerSet)
    (h : ∀ q v, answers q = some v → 1 ≤ v ∧ v ≤ 5) :
    ∀ p ∈ (compute_scores answers).1, 0 ≤ p.2.1 ∧ p.2.1 ≤ 100 := by
  intro p hp
  simp only [compute_scores, compute_scores_with, List.mem_map] at hp
  obtain ⟨c, hc, rfl⟩ := hp
  exact pillarScoreOf_nonneg_le answers c.2 fun q _ => getD_bounds answers h q

/-- C1 witness: the scenario answer set satisfies the range hypothesis and
its pillar scores are all within bounds. -/
theorem c1_witness :
    (∀ q v, ansScenario q = some v → 1 ≤ v ∧ v ≤ 5)
    ∧ ∀ p ∈ (compute_scores ansScenario).1, 0 ≤ p.2.1 ∧ p.2.1 ≤ 100 := by
  have h : ∀ q v, ansScenario q = some v → 1 ≤ v ∧ v ≤ 5 := fun q v hq =>
    lookup_val_bounds _ 1 5 (by decide) q v hq
  exact ⟨h, c1_scores_bounded ansScenario h⟩

/-- C3: when every present answer value lies in `[1, 5]`, each pillar score
equals exactly the sum of the gathered answers of the pillar divided by its
question count, divided by 5 and multiplied by 100, and lies in `[0, 100]`. -/
theorem c3_pillar_scores_exact (answers : AnswerSet)
    (h : ∀ q v, answers q = some v → 1 ≤ v ∧ v ≤ 5) :
    ∀ p ∈ (compute_scores answers).1,
      p.2.1 = (((p.2.2.map fun qv => qv.2).sum : ℤ) : ℚ) / (p.2.2.length : ℚ) / 5 * 100
      ∧ 0 ≤ p.2.1 ∧ p.2.1 ≤ 100 := by
  intro p hp
  simp only [compute_scores, compute_scores_with, List.mem_map] at hp
  obtain ⟨c, hc, rfl⟩ := hp
  have hne : c.2 ≠ [] := by
    fin_cases hc <;> simp
  refine ⟨?_, pillarScoreOf_nonneg_le answers c.2 fun q _ => getD_bounds answers h q⟩
  have hmap : ((c.2.map fun q => (q, (answers q).getD 0)).map fun qv => qv.2)
      = pillarVals answers c.2 := by
    simp [pillarVals, List.map_map, Function.comp]
  have hlen : (c.2.map fun q => (q, (answers q).getD 0)).length = c.2.length := by simp
  show pillarScoreOf answers c.2 = _
  rw [hmap, hlen, pillarScoreOf_formula answers c.2 hne]

/-- C3 witness: the scenario answer set satisfies the range hypothesis, and
the exact-formula conclusion holds for each of its pillars. -/
theorem c3_witness :
    (∀ q v, ansScenario q = some v → 1 ≤ v ∧ v ≤ 5)
    ∧ ∀ p ∈ (compute_scores ansScenario).1,
        p.2.1 = (((p.2.2.map fun qv => qv.2).sum : ℤ) : ℚ) / (p.2.2.length : ℚ) / 5 * 100
        ∧ 0 ≤ p.2.1 ∧ p.2.1 ≤ 100 := by
  have h : ∀ q v, ansScenario q = some v → 1 ≤ v ∧ v ≤ 5 := fun q v hq =>
    lookup_val_bounds _ 1 5 (by decide) q v hq
  exact ⟨h, c3_pillar_scores_exact ansScenario h⟩

/-- C4: the overall score is the unweighted arithmetic mean of the pillar
scores: one score per catalog pillar, in catalog order, and the overall
score is their sum divided by their number; a pillar whose gathered answers
are all zero scores exactly 0 while still contributing to the mean. -/
theorem c4_overall_mean (answers : AnswerSet) :
    (compute_scores answers).1.length = PILLARS.length
    ∧ ((compute_scores answers).1.map fun p => p.1) = PILLARS.map (fun c => c.1)
    ∧ (compute_scores answers).2 =
        ((compute_scores answers).1.map fun p => p.2.1).sum / ((compute_scores answers).1.length : ℚ)
    ∧ ∀ p ∈ (compute_scores answers).1, (∀ qv ∈ p.2.2, qv.2 = 0) → p.2.1 = 0 := by
  refine ⟨by simp [compute_scores, compute_scores_with],
          by simp [compute_scores, compute_scores_with],
          rfl, ?_⟩
  intro p hp hz
  simp only [compute_scores, compute_scores_with, List.mem_map] at hp
  obtain ⟨c, hc, rfl⟩ := hp
  refine pillarScoreOf_zero answers c.2 fun q hq => ?_
  exact hz (q, (answers q).getD 0) (List.mem_map_of_mem _ hq)

/-- C4 witness: on the all-unanswered answer set the mean invariant holds,
and the all-zero pillar A still scores 0. -/
theorem c4_witness :
    ((compute_scores ansNone).1.length = PILLARS.length
    ∧ ((compute_scores ansNone).1.map fun p => p.1) = PILLARS.map (fun c => c.1)
    ∧ (compute_scores ansNone).2 =
        ((compute_scores ansNone).1.map fun p => p.2.1).sum / ((compute_scores ansNone).1.length : ℚ))
    ∧ (("A. Channel Strategy & Alignment", (0 : ℚ),
        [("A1", (0 : ℤ)), ("A2", (0 : ℤ))]) : PillarScore).2.1 = 0 := by
  obtain ⟨h1, h2, h3, h4⟩ := c4_overall_mean ansNone
  exact ⟨⟨h1, h2, h3⟩, h4 _ (by decide) (by decide)⟩

/-- C5 (amended): the gaps are exactly the bottom three of a stable
descending sort of the pillar scores: there is a split `top ++ gl` of a
descending-sorted stable permutation of the input such that the gaps are
the names of `gl`, which holds the `min 3 n` lowest-scoring pillars; the
listing is descending by score (weakest pillar last), ties kept in original
catalog order. -/
theorem c5_gaps_bottom3 (ps : List PillarScore) :
    ∃ top gl : List PillarScore,
      (derive_strengths_gaps ps).2 = gl.map (fun p => p.1)
      ∧ gl.length = min 3 ps.length
      ∧ (top ++ gl).Perm ps
      ∧ List.Sorted (fun a b : PillarScore => b.2.1 ≤ a.2.1) (top ++ gl)
      ∧ ∀ a b : PillarScore, a.2.1 = b.2.1 →
          [a, b].Sublist ps → [a, b].Sublist (top ++ gl) := by
  refine ⟨(sortedDesc ps).take ((sortedDesc ps).length - 3),
          (sortedDesc ps).drop ((sortedDesc ps).length - 3), rfl, ?_, ?_, ?_, ?_⟩
  · have h1 : (sortedDesc ps).length = ps.length := by
      simp [sortedDesc, List.length_insertionSort]
    rw [List.length_drop, h1]
    omega
  · rw [List.take_append_drop]
    exact List.perm_insertionSort _ _
  · rw [List.take_append_drop]
    haveI ht : IsTotal PillarScore (fun a b => b.2.1 ≤ a.2.1) :=
      ⟨fun a b => le_total b.2.1 a.2.1⟩
    haveI htr : IsTrans PillarScore (fun a b => b.2.1 ≤ a.2.1) :=
      ⟨fun a b c hab hbc => le_trans hbc hab⟩
    exact List.sorted_insertionSort _ _
  · intro a b hab hsub
    rw [List.take_append_drop]
    exact List.pair_sublist_insertionSort (le_of_eq hab.symm) hsub

/-- C8: a pillar with an empty question list never divides by zero: its
score is computed as exactly 0 through the guard branch, and the pillar
entry with score 0 appears in the result, for any catalog containing such a
pillar and any answer set. -/
theorem c8_empty_pillar (catalog : List (String × List QuestionId))
    (answers : AnswerSet) (pname : String)
    (h : (pname, ([] : List QuestionId)) ∈ catalog) :
    pillarScoreOf answers [] = 0
    ∧ (pname, (0 : ℚ), ([] : List (QuestionId × ℤ))) ∈ (compute_scores_with catalog answers).1 := by
  have h0 : pillarScoreOf answers [] = 0 := by simp [pillarScoreOf, pillarVals]
  refine ⟨h0, ?_⟩
  have hmem := List.mem_map_of_mem
    (fun c : String × List QuestionId =>
      (c.1, pillarScoreOf answers c.2, c.2.map fun q => (q, (answers q).getD 0))) h
  simpa [compute_scores_with, h0] using hmem

/-- C8 witness: a one-pillar catalog whose pillar has no questions yields
the zero-score entry. -/
theorem c8_witness :
    pillarScoreOf ansNone [] = 0
    ∧ ("Empty", (0 : ℚ), ([] : List (QuestionId × ℤ)))
        ∈ (compute_scores_with catalogEmptyPillar ansNone).1 :=
  c8_empty_pillar catalogEmptyPillar ansNone "Empty" (by decide)

/-- C9: for five pillar scores with distinct names, the strengths (2) and
gaps (3) are disjoint and together name every pillar exactly once, even
under score ties, because both are complementary slices of one sorted
permutation of the input. -/
theorem c9_strengths_gaps_partition (ps : List PillarScore) (h5 : ps.length = 5)
    (hnd : (ps.map (fun p => p.1)).Nodup) :
    (derive_strengths_gaps ps).1.length = 2
    ∧ (derive_strengths_gaps ps).2.length = 3
    ∧ List.Disjoint (derive_strengths_gaps ps).1 (derive_strengths_gaps ps).2
    ∧ ∀ n ∈ ps.map (fun p => p.1),
        ((derive_strengths_gaps ps).1 ++ (derive_strengths_gaps ps).2).count n = 1 := by
  have hs : (sortedDesc ps).length = 5 := by
    simp [sortedDesc, List.length_insertionSort, h5]
  have hkey : (derive_strengths_gaps ps).1 ++ (derive_strengths_gaps ps).2
      = (sortedDesc ps).map (fun p => p.1) := by
    show ((sortedDesc ps).take 2).map _
        ++ ((sortedDesc ps).drop ((sortedDesc ps).length - 3)).map _ = _
    rw [hs, show (5 : ℕ) - 3 = 2 from rfl, ← List.map_append, List.take_append_drop]
  have hperm : ((sortedDesc ps).map (fun p => p.1)).Perm (ps.map (fun p => p.1)) :=
    (List.perm_insertionSort _ _).map _
  have hnd3 : ((derive_strengths_gaps ps).1 ++ (derive_strengths_gaps ps).2).Nodup := by
    rw [hkey]
    exact (hperm.nodup_iff).mpr hnd
  obtain ⟨-, -, hdisj⟩ := List.nodup_append.mp hnd3
  refine ⟨?_, ?_, hdisj, ?_⟩
  · show (((sortedDesc ps).take 2).map _).length = 2
    simp [hs]
  · show (((sortedDesc ps).drop ((sortedDesc ps).length - 3)).map _).length = 3
    simp [hs]
  · intro n hn
    have hmem : n ∈ (derive_strengths_gaps ps).1 ++ (derive_strengths_gaps ps).2 := by
      rw [hkey]
      exact hperm.mem_iff.mpr hn
    exact List.count_eq_one_of_mem hnd3 hmem

/-- C9 witness: the partition property at a concrete five-pillar list with a
score tie. -/
theorem c9_witness :
    (derive_strengths_gaps psTie).1.length = 2
    ∧ (derive_strengths_gaps psTie).2.length = 3
    ∧ List.Disjoint (derive_strengths_gaps psTie).1 (derive_strengths_gaps psTie).2
    ∧ ∀ n ∈ psTie.map (fun p => p.1),
        ((derive_strengths_gaps psTie).1 ++ (derive_strengths_gaps psTie).2).count n = 1 :=
  c9_strengths_gaps_partition psTie (by decide) (by decide)

/-- C10: when every pillar name comes from the catalog, the recommendation
list takes the three lowest-scoring pillars of the ascending stable sort and
every returned recommendation is the fixed playbook text of such a pillar:
the generic fallback branch is never taken. -/
theorem c10_playbook_covers (ps : List PillarScore)
    (h : ∀ p ∈ ps, p.1 ∈ PILLARS.map (fun c => c.1)) :
    (recommend_actions ps).length = min 3 ps.length
    ∧ (sortedAsc ps).Perm ps
    ∧ List.Sorted (fun a b : PillarScore => a.2.1 ≤ b.2.1) (sortedAsc ps)
    ∧ ∀ r ∈ recommend_actions ps,
        ∃ p ∈ (sortedAsc ps).take 3, playbook.lookup p.1 = some r := by
  refine ⟨?_, List.perm_insertionSort _ _, ?_, ?_⟩
  · simp [recommend_actions, sortedAsc, List.length_insertionSort, List.length_take]
  · haveI : IsTotal PillarScore (fun a b => a.2.1 ≤ b.2.1) := ⟨fun a b => le_total _ _⟩
    haveI : IsTrans PillarScore (fun a b => a.2.1 ≤ b.2.1) := ⟨fun a b c => le_trans⟩
    exact List.sorted_insertionSort _ _
  · intro r hr
    simp only [recommend_actions, List.mem_map] at hr
    obtain ⟨p, hp, hpr⟩ := hr
    have hmem : p ∈ ps :=
      (List.perm_insertionSort _ ps).subset (List.mem_of_mem_take hp)
    have hsome : (playbook.lookup p.1).isSome := by
      have hall : ∀ n ∈ PILLARS.map (fun c => c.1), (playbook.lookup n).isSome := by decide
      exact hall p.1 (h p hmem)
    obtain ⟨t, ht⟩ := Option.isSome_iff_exists.mp hsome
    have hre : t = r := by
      rw [ht] at hpr
      exact hpr
    exact ⟨p, hp, by rw [ht, hre]⟩

/-- C10 witness: on a concrete catalog-named pillar list every returned
recommendation is a playbook entry of one of the three lowest pillars. -/
theorem c10_witness :
    (recommend_actions psCatalog).length = min 3 psCatalog.length
    ∧ (sortedAsc psCatalog).Perm psCatalog
    ∧ List.Sorted (fun a b : PillarScore => a.2.1 ≤ b.2.1) (sortedAsc psCatalog)
    ∧ ∀ r ∈ recommend_actions psCatalog,
        ∃ p ∈ (sortedAsc psCatalog).take 3, playbook.lookup p.1 = some r :=
  c10_playbook_covers psCatalog (by decide)
